import Mathlib

/-!
Shallow embedding of the CS6650-HW8-Dynamo repository.

The load-test harness (`testing/test.go`) is embedded in namespace
`Testing`; the service's shopping-cart handler (`createShoppingCart`,
with its DynamoDB helpers from `src/dynamo.go`) is embedded in
namespace `Service`.

Modelling conventions:
  * Elapsed times are `float64` milliseconds in Go; they are modelled as
    exact rationals (`Rat`).  No claim proved here depends on float64
    rounding: the statistics claims concern the integer count fields and
    the key set of the mapping, and the per-record claims concern the
    success flag and status code.
  * An HTTP round trip is modelled by `Testing.Transport`: either a
    transport-level failure (`err != nil`, `resp == nil` in Go: connection
    refused, timeout, DNS failure, malformed URL) or a received response
    with a status code.  The elapsed time and timestamp observed by a task
    are inputs supplied by the environment.
  * `runConcurrent` launches one goroutine per task, gated by a buffered
    channel of capacity `NumWorkers` used as a counting semaphore, and
    waits on a `sync.WaitGroup`.  Two views are embedded: an operational
    small-step model (`PoolStep`/`PoolReach`) for the admission-control
    discipline, and a sequentialised functional model for the records a
    phase produces (per-kind counts are independent of the
    nondeterministic intra-phase completion order).
  * `runConcurrent` installs no `recover()` at the task boundary, so a Go
    panic raised inside a task body propagates out of the goroutine and
    kills the whole process.  `runTasks` models a task body as
    `Except String TestResult`: `Except.error` is a panic, which aborts
    the run, exactly as in the source.
-/

namespace Testing

/-- Constants from `testing/test.go` lines 15-24. -/
def NumCreateCart : Nat := 50

/-- Number of add-item tasks (phase 2). -/
def NumAddItems : Nat := 50

/-- Number of get-cart tasks (phase 3). -/
def NumGetCart : Nat := 50

/-- Total operations across the three phases. -/
def TotalOps : Nat := NumCreateCart + NumAddItems + NumGetCart

/-- Concurrent worker bound (capacity of the semaphore channel). -/
def NumWorkers : Nat := 10

/-- Outcome of one HTTP round trip as seen by the harness: either a
transport-level failure (Go: `err != nil`, `resp == nil`) or a received
response carrying a status code. -/
inductive Transport where
  | failure : Transport
  | response (statusCode : Nat) : Transport
deriving DecidableEq, Repr

/-- `TestResult` from `testing/test.go` lines 27-34: one Outcome Record. -/
structure TestResult where
  operation : String
  responseTime : Rat
  success : Bool
  statusCode : Nat
  timestamp : String
  customerID : Int
deriving DecidableEq, Repr

/-- `OpStats` from `testing/test.go` lines 43-51. -/
structure OpStats where
  count : Nat
  successful : Nat
  failed : Nat
  avgResponseTime : Rat
  minResponseTime : Rat
  maxResponseTime : Rat
  totalResponseTime : Rat
deriving DecidableEq, Repr

/-- `testConnectivity` (lines 162-169): `GET /health`; false on transport
error, otherwise true exactly when the status is 200. -/
def testConnectivity : Transport → Bool
  | .failure => false
  | .response s => s == 200

/-- `createCart` (lines 190-218): POST `/shopping-carts`.  Success is
`err == nil && (status == 200 || status == 201)`; the status code field
stays at its zero value when `resp == nil`. -/
def createCart (customerID : Int) (t : Transport) (elapsed : Rat)
    (stamp : String) : TestResult :=
  { operation := "create_cart"
    responseTime := elapsed
    success := match t with
      | .failure => false
      | .response s => s == 200 || s == 201
    statusCode := match t with
      | .failure => 0
      | .response s => s
    timestamp := stamp
    customerID := customerID }

/-- `addItemToCart` (lines 220-251): POST `/shopping-carts/{id}/items`.
Same success policy as `createCart` (200 or 201). -/
def addItemToCart (customerID : Int) (t : Transport) (elapsed : Rat)
    (stamp : String) : TestResult :=
  { operation := "add_items"
    responseTime := elapsed
    success := match t with
      | .failure => false
      | .response s => s == 200 || s == 201
    statusCode := match t with
      | .failure => 0
      | .response s => s
    timestamp := stamp
    customerID := customerID }

/-- `getCart` (lines 253-276): GET `/shopping-carts/{id}`.  Success is
`err == nil && status == 200`. -/
def getCart (customerID : Int) (t : Transport) (elapsed : Rat)
    (stamp : String) : TestResult :=
  { operation := "get_cart"
    responseTime := elapsed
    success := match t with
      | .failure => false
      | .response s => s == 200
    statusCode := match t with
      | .failure => 0
      | .response s => s
    timestamp := stamp
    customerID := customerID }

/-- The fixed list of operation kinds scanned by `calculateStatistics`
(line 286). -/
def opTypes : List String := ["create_cart", "add_items", "get_cart"]

/-- The seed value of a per-kind accumulator (line 289-291): everything
zero except the running minimum seeded at 999999. -/
def initStat : OpStats :=
  { count := 0, successful := 0, failed := 0, avgResponseTime := 0
    minResponseTime := 999999, maxResponseTime := 0, totalResponseTime := 0 }

/-- One iteration of the inner loop of `calculateStatistics`
(lines 293-311) on a record already known to match the kind. -/
def updateStat (stat : OpStats) (r : TestResult) : OpStats :=
  let s1 := { stat with count := stat.count + 1
                        totalResponseTime := stat.totalResponseTime + r.responseTime }
  let s2 := if r.success then { s1 with successful := s1.successful + 1 }
            else { s1 with failed := s1.failed + 1 }
  let s3 := if r.responseTime < s2.minResponseTime then
              { s2 with minResponseTime := r.responseTime }
            else s2
  if r.responseTime > s3.maxResponseTime then
    { s3 with maxResponseTime := r.responseTime }
  else s3

/-- The inner scan of `calculateStatistics` for one kind: fold over all
records, updating the accumulator on the ones whose operation matches. -/
def scanStat (opType : String) (results : List TestResult) : OpStats :=
  results.foldl
    (fun stat r => if r.operation == opType then updateStat stat r else stat)
    initStat

/-- Per-kind statistic as stored into the map (lines 288-318): the scan,
then `avg = sum / count` when `count > 0`. -/
def statFor (opType : String) (results : List TestResult) : OpStats :=
  let stat := scanStat opType results
  if stat.count > 0 then
    { stat with avgResponseTime := stat.totalResponseTime / (stat.count : Rat) }
  else stat

/-- `calculateStatistics` (lines 284-321).  The Go map receives exactly one
insertion per element of `opTypes`, unconditionally; the resulting map is
embedded as the association list of those three insertions in order. -/
def calculateStatistics (results : List TestResult) : List (String × OpStats) :=
  opTypes.map (fun opType => (opType, statFor opType results))

/-- The per-phase inputs supplied by the environment: for the i-th task,
the transport result of its HTTP call, the elapsed time observed, and the
wall-clock timestamp captured when the record is built. -/
structure TaskEnv where
  transport : Nat → Transport
  elapsed : Nat → Rat
  stamp : Nat → String

/-- The whole run's environment: the health-check result, the randomized
base customer identifier (line 80), and the three phases' task inputs. -/
structure RunEnv where
  health : Transport
  base : Int
  phase1 : TaskEnv
  phase2 : TaskEnv
  phase3 : TaskEnv

/-- Phase 1 (lines 85-95): `createCart(customerIDs[i])` for
`i = 0 .. NumCreateCart-1`, `customerIDs[i] = baseCustomerID + i`. -/
def runPhase1 (base : Int) (env : TaskEnv) : List TestResult :=
  (List.range NumCreateCart).map
    (fun (i : Nat) => createCart (base + (i : Int)) (env.transport i) (env.elapsed i) (env.stamp i))

/-- Phase 2 (lines 97-103): `addItemToCart(customerIDs[i % len])`. -/
def runPhase2 (base : Int) (env : TaskEnv) : List TestResult :=
  (List.range NumAddItems).map
    (fun (i : Nat) => addItemToCart (base + ((i % NumCreateCart : Nat) : Int))
      (env.transport i) (env.elapsed i) (env.stamp i))

/-- Phase 3 (lines 105-111): `getCart(customerIDs[i % len])`. -/
def runPhase3 (base : Int) (env : TaskEnv) : List TestResult :=
  (List.range NumGetCart).map
    (fun (i : Nat) => getCart (base + ((i % NumCreateCart : Nat) : Int))
      (env.transport i) (env.elapsed i) (env.stamp i))

/-- Observable outcome of `main` (lines 60-146): the process exit code
(`some 1` when `os.Exit(1)` fires after a failed health check, `none` on
a normal return), the phases that executed in order, the collected
Outcome Records, and the computed statistics mapping. -/
structure RunOutcome where
  exitCode : Option Nat
  phasesRun : List Nat
  results : List TestResult
  stats : List (String × OpStats)
deriving Repr

/-- `main` (lines 60-146): the health check gates everything; on success
the three phases run strictly in order, the records accumulate in the
shared slice, and statistics are computed from the full set.  Intra-phase
completion order is nondeterministic in the source; the sequentialised
order used here is one admissible interleaving, and every per-kind count
proved below is independent of that order. -/
def mainRun (env : RunEnv) : RunOutcome :=
  if testConnectivity env.health then
    let rs := runPhase1 env.base env.phase1 ++ runPhase2 env.base env.phase2
                ++ runPhase3 env.base env.phase3
    { exitCode := none, phasesRun := [1, 2, 3], results := rs
      stats := calculateStatistics rs }
  else
    { exitCode := some 1, phasesRun := [], results := [], stats := [] }

/-- A task body in `runConcurrent` (lines 171-188) either returns normally
with the Outcome Record it appended, or raises a Go panic (`Except.error`
with the panic message).  `runConcurrent` installs no `recover()` at the
task boundary, so a panic propagates out of the goroutine and aborts the
whole process: no record is emitted for it, and the remaining tasks die
with the process.  `runTasks` is the sequentialisation of that behaviour. -/
def runTasks (task : Nat → Except String TestResult) :
    List Nat → Except String (List TestResult)
  | [] => Except.ok []
  | i :: is =>
    match task i with
    | Except.error msg => Except.error msg
    | Except.ok r => (runTasks task is).map (fun rs => r :: rs)

/-- Running `count` tasks through `runConcurrent`, sequentialised. -/
def runConcurrentSeq (count : Nat) (task : Nat → Except String TestResult) :
    Except String (List TestResult) :=
  runTasks task (List.range count)

/-- State of the worker pool of `runConcurrent` (lines 171-188): `waiting`
holds indices of goroutines blocked on `semaphore <- struct{}{}`, `running`
holds indices that acquired a slot and are executing `taskFunc`, `done`
holds indices that released their slot and called `wg.Done()`. -/
structure PoolState where
  waiting : List Nat
  running : List Nat
  done : List Nat
deriving DecidableEq, Repr

/-- Initial pool state: all `count` goroutines spawned and queued on the
semaphore, none running, none done. -/
def initPool (count : Nat) : PoolState :=
  { waiting := List.range count, running := [], done := [] }

/-- One scheduler step of the pool with semaphore capacity `W`: any
waiting goroutine may acquire a slot provided fewer than `W` are running
(the buffered channel has a free cell), and any running goroutine may
finish, releasing its slot. -/
inductive PoolStep (W : Nat) : PoolState → PoolState → Prop
  | acquire (w1 w2 : List Nat) (i : Nat) (r d : List Nat)
      (hW : r.length < W) :
      PoolStep W ⟨w1 ++ i :: w2, r, d⟩ ⟨w1 ++ w2, i :: r, d⟩
  | release (r1 r2 : List Nat) (i : Nat) (w d : List Nat) :
      PoolStep W ⟨w, r1 ++ i :: r2, d⟩ ⟨w, r1 ++ r2, i :: d⟩

/-- States reachable by the pool during one `runConcurrent(count, ...)`
call with semaphore capacity `W`. -/
inductive PoolReach (W count : Nat) : PoolState → Prop
  | init : PoolReach W count (initPool count)
  | step {s t : PoolState} : PoolReach W count s → PoolStep W s t →
      PoolReach W count t

end Testing

namespace Service

/-- `CartProduct` from `src/dynamo.go`: one line item of a stored cart. -/
structure CartProduct where
  productID : Int
  manufacturer : String
  category : String
  quantity : Int
deriving DecidableEq, Repr

/-- `CartItem` from `src/dynamo.go`: a stored shopping cart, keyed by
customer identifier in the carts table. -/
structure CartRecord where
  customerID : Int
  items : List CartProduct
  createdAt : String
  updatedAt : String
deriving DecidableEq, Repr

/-- The carts DynamoDB table, modelled as an association list from
customer identifier to stored cart (one item per key). -/
abbrev CartStore : Type := List (Int × CartRecord)

/-- `dynamoClient.GetItem` on the carts table: lookup by customer key.
The DynamoDB call is modelled as succeeding (`err == nil`); `none` is
`result.Item == nil`. -/
def getItem (store : CartStore) (customerID : Int) : Option CartRecord :=
  (List.lookup customerID store)

/-- `dynamoClient.PutItem` on the carts table: overwrite the item under
the customer key.  Prepending shadows any older entry under `getItem`. -/
def putItem (store : CartStore) (customerID : Int) (cart : CartRecord) :
    CartStore :=
  (customerID, cart) :: store

/-- Response observed by the HTTP client: status and message field. -/
structure HandlerResponse where
  status : Nat
  message : String
deriving DecidableEq, Repr

/-- `createShoppingCart` (`src/unnamed/part_003` lines 41-109), after JSON
binding has produced a valid integer `customer_id` and with the DynamoDB
calls succeeding (marshalling of a `CartItem` cannot fail): if `GetItem`
finds an existing cart, respond 200 "already exists" and issue no write;
otherwise build a fresh cart with an empty items list, `PutItem` it, and
respond 201. -/
def createShoppingCart (store : CartStore) (customerID : Int)
    (now : String) : CartStore × HandlerResponse :=
  match getItem store customerID with
  | some _ =>
    (store,
     { status := 200
       message := "Shopping cart already exists for this customer" })
  | none =>
    let newCart : CartRecord :=
      { customerID := customerID, items := [], createdAt := now
        updatedAt := now }
    (putItem store customerID newCart,
     { status := 201
       message := "shopping cart created for customer " ++ toString customerID })

end Service

namespace Testing

theorem updateStat_count (s : OpStats) (r : TestResult) :
    (updateStat s r).count = s.count + 1 := by
  simp only [updateStat]
  split <;> split <;> split <;> rfl

theorem updateStat_split (s : OpStats) (r : TestResult) :
    (updateStat s r).successful + (updateStat s r).failed
      = s.successful + s.failed + 1 := by
  simp only [updateStat]
  split <;> split <;> split <;> simp <;> omega

theorem scanStat_foldl_count (opType : String) (rs : List TestResult) :
    ∀ s0 : OpStats,
      (rs.foldl
          (fun stat r => if r.operation == opType then updateStat stat r else stat)
          s0).count
        = s0.count + rs.countP (fun r => r.operation == opType) := by
  induction rs with
  | nil => intro s0; simp
  | cons r rs ih =>
    intro s0
    simp only [List.foldl_cons, List.countP_cons]
    by_cases h : (r.operation == opType) = true
    · rw [if_pos h, ih, updateStat_count, h]
      simp
      omega
    · rw [if_neg h, ih]
      simp [h]

theorem scanStat_foldl_split (opType : String) (rs : List TestResult) :
    ∀ s0 : OpStats,
      (rs.foldl
          (fun stat r => if r.operation == opType then updateStat stat r else stat)
          s0).successful
        + (rs.foldl
            (fun stat r => if r.operation == opType then updateStat stat r else stat)
            s0).failed
        = s0.successful + s0.failed + rs.countP (fun r => r.operation == opType) := by
  induction rs with
  | nil => intro s0; simp
  | cons r rs ih =>
    intro s0
    simp only [List.foldl_cons, List.countP_cons]
    by_cases h : (r.operation == opType) = true
    · rw [if_pos h, ih, updateStat_split, h]
      simp
      omega
    · rw [if_neg h, ih]
      simp [h]

theorem scanStat_count (opType : String) (rs : List TestResult) :
    (scanStat opType rs).count = rs.countP (fun r => r.operation == opType) := by
  rw [scanStat, scanStat_foldl_count]
  simp [initStat]

theorem scanStat_split (opType : String) (rs : List TestResult) :
    (scanStat opType rs).successful + (scanStat opType rs).failed
      = rs.countP (fun r => r.operation == opType) := by
  rw [scanStat, scanStat_foldl_split]
  simp [initStat]

theorem statFor_count (opType : String) (rs : List TestResult) :
    (statFor opType rs).count = rs.countP (fun r => r.operation == opType) := by
  rw [statFor]
  split
  · exact scanStat_count opType rs
  · exact scanStat_count opType rs

theorem statFor_split (opType : String) (rs : List TestResult) :
    (statFor opType rs).successful + (statFor opType rs).failed
      = (statFor opType rs).count := by
  rw [statFor_count, statFor]
  split
  · exact scanStat_split opType rs
  · exact scanStat_split opType rs

/-- C7: every entry of the statistics mapping computed by
`calculateStatistics` satisfies `count = successful + failed`: each
matching record increments `count` by one and exactly one of
`successful`/`failed` by one. -/
theorem calculateStatistics_count_split (rs : List TestResult)
    (e : String × OpStats) (he : e ∈ calculateStatistics rs) :
    e.2.count = e.2.successful + e.2.failed := by
  rcases List.mem_map.mp he with ⟨k, _, rfl⟩
  exact (statFor_split k rs).symm

/-- Witness for C7 at a concrete input: the `create_cart` entry of the
statistics of a one-record list. -/
theorem calculateStatistics_count_split_witness :
    (statFor "create_cart" [createCart 3 (Transport.response 201) 5 "t"]).count
      = (statFor "create_cart" [createCart 3 (Transport.response 201) 5 "t"]).successful
        + (statFor "create_cart" [createCart 3 (Transport.response 201) 5 "t"]).failed :=
  calculateStatistics_count_split [createCart 3 (Transport.response 201) 5 "t"]
    ("create_cart", statFor "create_cart" [createCart 3 (Transport.response 201) 5 "t"])
    (List.mem_map.mpr ⟨"create_cart", by simp [opTypes], rfl⟩)

/-- C9: the Statistics Engine is a pure, deterministic function of the
snapshot of Outcome Records it consumes (the source iterates the results
slice and the fixed `opTypes` list in order, reading no other state), so
computing it twice over the same snapshot yields identical mappings. -/
theorem calculateStatistics_deterministic (rs1 rs2 : List TestResult)
    (h : rs1 = rs2) :
    calculateStatistics rs1 = calculateStatistics rs2 := by
  rw [h]

/-- Witness for C9 at a concrete snapshot. -/
theorem calculateStatistics_deterministic_witness :
    calculateStatistics [getCart 3 (Transport.response 200) 2 "t"]
      = calculateStatistics [getCart 3 (Transport.response 200) 2 "t"] :=
  calculateStatistics_deterministic [getCart 3 (Transport.response 200) 2 "t"]
    [getCart 3 (Transport.response 200) 2 "t"] rfl

/-- C2 counterexample: on an empty input (no record of any kind), the
computed mapping nevertheless contains an entry for `create_cart` — the
zero-filled accumulator with the minimum still at its 999999 seed — because
the source stores `stats[opType] = stat` unconditionally for each of the
three fixed kinds. -/
theorem calculateStatistics_empty_entry :
    ("create_cart", initStat) ∈ calculateStatistics []
      ∧ ([] : List TestResult).countP (fun r => r.operation == "create_cart") = 0 := by
  constructor
  · exact List.mem_map.mpr ⟨"create_cart", by simp [opTypes], rfl⟩
  · rfl

theorem scanStat_foldl_no_match (opType : String) (rs : List TestResult)
    (h : ∀ r ∈ rs, (r.operation == opType) = false) :
    ∀ s0 : OpStats,
      rs.foldl
          (fun stat r => if r.operation == opType then updateStat stat r else stat)
          s0
        = s0 := by
  induction rs with
  | nil => intro s0; rfl
  | cons r rs ih =>
    intro s0
    have hr : (r.operation == opType) = false := h r (List.mem_cons_self r rs)
    simp only [List.foldl_cons, hr, if_neg]
    exact ih (fun x hx => h x (List.mem_cons_of_mem r hx)) s0

theorem statFor_of_no_match (opType : String) (rs : List TestResult)
    (h : rs.countP (fun r => r.operation == opType) = 0) :
    statFor opType rs = initStat := by
  have hall : ∀ r ∈ rs, (r.operation == opType) = false := by
    intro r hr
    have := List.countP_eq_zero.mp h r hr
    simpa using this
  have hscan : scanStat opType rs = initStat := by
    rw [scanStat]
    exact scanStat_foldl_no_match opType rs hall initStat
  rw [statFor, hscan]
  rfl

/-- C2 amended: the mapping emitted by `calculateStatistics` always has
exactly the three fixed kinds `create_cart`, `add_items`, `get_cart` as its
keys, regardless of the input; a kind with no matching record in the input
receives the zero-filled seed entry (minimum still 999999), not no entry. -/
theorem calculateStatistics_keys (rs : List TestResult) :
    (calculateStatistics rs).map Prod.fst = opTypes
      ∧ ∀ k, k ∈ opTypes →
          rs.countP (fun r => r.operation == k) = 0 →
          (k, initStat) ∈ calculateStatistics rs := by
  constructor
  · rfl
  · intro k hk h0
    refine List.mem_map.mpr ⟨k, hk, ?_⟩
    rw [statFor_of_no_match k rs h0]

/-- Witness for C2 amended: a snapshot holding only a `get_cart` record
still yields all three keys, and its `create_cart` entry is the seed. -/
theorem calculateStatistics_keys_witness :
    (calculateStatistics [getCart 4 (Transport.response 200) 2 "t"]).map Prod.fst
        = opTypes
      ∧ ("create_cart", initStat)
          ∈ calculateStatistics [getCart 4 (Transport.response 200) 2 "t"] :=
  ⟨(calculateStatistics_keys [getCart 4 (Transport.response 200) 2 "t"]).1,
   (calculateStatistics_keys [getCart 4 (Transport.response 200) 2 "t"]).2
     "create_cart" (by simp [opTypes]) (by decide)⟩

/-- C3: a task whose HTTP call fails at the transport level (connection
refused, timeout, DNS failure, malformed URL: `err != nil`, `resp == nil`)
yields an Outcome Record with `success = false`, `status_code = 0` (the
field keeps its zero value because the `resp != nil` branch is skipped),
and the elapsed time measured up to the failure; and every phase still
produces exactly one record per task, whatever each task's transport
outcome was. -/
theorem transport_failure_recorded (cid : Int) (e : Rat) (ts : String)
    (base : Int) (env1 env2 env3 : TaskEnv) :
    ((createCart cid Transport.failure e ts).success = false
      ∧ (createCart cid Transport.failure e ts).statusCode = 0
      ∧ (createCart cid Transport.failure e ts).responseTime = e)
    ∧ ((addItemToCart cid Transport.failure e ts).success = false
      ∧ (addItemToCart cid Transport.failure e ts).statusCode = 0
      ∧ (addItemToCart cid Transport.failure e ts).responseTime = e)
    ∧ ((getCart cid Transport.failure e ts).success = false
      ∧ (getCart cid Transport.failure e ts).statusCode = 0
      ∧ (getCart cid Transport.failure e ts).responseTime = e)
    ∧ (runPhase1 base env1).length = NumCreateCart
    ∧ (runPhase2 base env2).length = NumAddItems
    ∧ (runPhase3 base env3).length = NumGetCart := by
  refine ⟨⟨rfl, rfl, rfl⟩, ⟨rfl, rfl, rfl⟩, ⟨rfl, rfl, rfl⟩, ?_, ?_, ?_⟩ <;>
    simp [runPhase1, runPhase2, runPhase3]

/-- Success-code policy of the section-6 table for the two write
endpoints (POST create-cart, POST add-item): 200 or 201. -/
def specWriteSuccess (s : Nat) : Bool := s == 200 || s == 201

/-- Success-code policy of the section-6 table for the read endpoint
(GET cart): only 200. -/
def specReadSuccess (s : Nat) : Bool := s == 200

/-- C6: on a received response, each call site computes the record's
success flag exactly as the section-6 table specifies: 200/201 for the
create-cart and add-item writes, exactly 200 for the get-cart read. -/
theorem success_policy_matches_table (cid : Int) (s : Nat) (e : Rat)
    (ts : String) :
    (createCart cid (Transport.response s) e ts).success = specWriteSuccess s
    ∧ (addItemToCart cid (Transport.response s) e ts).success = specWriteSuccess s
    ∧ (getCart cid (Transport.response s) e ts).success = specReadSuccess s :=
  ⟨rfl, rfl, rfl⟩

/-- A task environment with constant inputs, used to instantiate run-level
theorems at concrete runs. -/
def constTaskEnv : TaskEnv :=
  { transport := fun _ => Transport.response 201
    elapsed := fun _ => 1
    stamp := fun _ => "t" }

/-- A run whose health check receives status 500. -/
def envHealth500 : RunEnv :=
  { health := Transport.response 500, base := 10000
    phase1 := constTaskEnv, phase2 := constTaskEnv, phase3 := constTaskEnv }

/-- A run whose health check receives status 200. -/
def envHealthy : RunEnv :=
  { health := Transport.response 200, base := 10000
    phase1 := constTaskEnv, phase2 := constTaskEnv, phase3 := constTaskEnv }

/-- C4: the pre-flight health check fails on a transport error or on any
status other than 200; a failed check makes the orchestrator exit with
code 1 before any phase runs, with zero Outcome Records collected, while a
passing check lets the three phases execute in order. -/
theorem mainRun_health_gate (env : RunEnv) :
    (testConnectivity Transport.failure = false)
    ∧ (∀ s : Nat, s ≠ 200 → testConnectivity (Transport.response s) = false)
    ∧ (testConnectivity env.health = false →
        (mainRun env).exitCode = some 1 ∧ (mainRun env).phasesRun = []
          ∧ (mainRun env).results = [])
    ∧ (testConnectivity env.health = true →
        (mainRun env).exitCode = none ∧ (mainRun env).phasesRun = [1, 2, 3]) := by
  refine ⟨rfl, ?_, ?_, ?_⟩
  · intro s hs
    simpa [testConnectivity] using hs
  · intro h
    simp [mainRun, h]
  · intro h
    simp [mainRun, h]

/-- Witness for C4: the status-500 run aborts with exit code 1 and no
records, and the status-200 run executes phases 1, 2, 3. -/
theorem mainRun_health_gate_witness :
    ((mainRun envHealth500).exitCode = some 1
      ∧ (mainRun envHealth500).phasesRun = []
      ∧ (mainRun envHealth500).results = [])
    ∧ ((mainRun envHealthy).exitCode = none
      ∧ (mainRun envHealthy).phasesRun = [1, 2, 3]) :=
  ⟨(mainRun_health_gate envHealth500).2.2.1 rfl,
   (mainRun_health_gate envHealthy).2.2.2 rfl⟩

theorem countP_map_range_true {α : Type} (n : Nat) (f : Nat → α)
    (p : α → Bool) (hb : ∀ i, p (f i) = true) :
    ((List.range n).map f).countP p = n := by
  rw [List.countP_map, List.countP_eq_length.mpr]
  · exact List.length_range n
  · intro a _
    simpa [Function.comp] using hb a

theorem countP_map_range_false {α : Type} (n : Nat) (f : Nat → α)
    (p : α → Bool) (hb : ∀ i, p (f i) = false) :
    ((List.range n).map f).countP p = 0 := by
  rw [List.countP_map]
  refine List.countP_eq_zero.mpr ?_
  intro a _
  simp [Function.comp, hb]

/-- C8: when the health check passes so that all three phases execute, the
run collects exactly `TotalOps = 150` Outcome Records (each of the
50 + 50 + 50 submitted tasks contributes exactly one), and the per-kind
counts of the statistics mapping sum to that same 150: each record is
counted under its own kind. -/
theorem mainRun_total_count (env : RunEnv)
    (h : testConnectivity env.health = true) :
    (mainRun env).results.length = 150
      ∧ ((mainRun env).stats.map (fun e => e.2.count)).sum = 150
      ∧ TotalOps = 150 := by
  have h1c : (runPhase1 env.base env.phase1).countP
      (fun r => r.operation == "create_cart") = NumCreateCart := by
    rw [runPhase1]; exact countP_map_range_true _ _ _ (fun i => rfl)
  have h1a : (runPhase1 env.base env.phase1).countP
      (fun r => r.operation == "add_items") = 0 := by
    rw [runPhase1]; exact countP_map_range_false _ _ _ (fun i => rfl)
  have h1g : (runPhase1 env.base env.phase1).countP
      (fun r => r.operation == "get_cart") = 0 := by
    rw [runPhase1]; exact countP_map_range_false _ _ _ (fun i => rfl)
  have h2c : (runPhase2 env.base env.phase2).countP
      (fun r => r.operation == "create_cart") = 0 := by
    rw [runPhase2]; exact countP_map_range_false _ _ _ (fun i => rfl)
  have h2a : (runPhase2 env.base env.phase2).countP
      (fun r => r.operation == "add_items") = NumAddItems := by
    rw [runPhase2]; exact countP_map_range_true _ _ _ (fun i => rfl)
  have h2g : (runPhase2 env.base env.phase2).countP
      (fun r => r.operation == "get_cart") = 0 := by
    rw [runPhase2]; exact countP_map_range_false _ _ _ (fun i => rfl)
  have h3c : (runPhase3 env.base env.phase3).countP
      (fun r => r.operation == "create_cart") = 0 := by
    rw [runPhase3]; exact countP_map_range_false _ _ _ (fun i => rfl)
  have h3a : (runPhase3 env.base env.phase3).countP
      (fun r => r.operation == "add_items") = 0 := by
    rw [runPhase3]; exact countP_map_range_false _ _ _ (fun i => rfl)
  have h3g : (runPhase3 env.base env.phase3).countP
      (fun r => r.operation == "get_cart") = NumGetCart := by
    rw [runPhase3]; exact countP_map_range_true _ _ _ (fun i => rfl)
  refine ⟨?_, ?_, rfl⟩
  · simp [mainRun, h, runPhase1, runPhase2, runPhase3,
      NumCreateCart, NumAddItems, NumGetCart]
  · simp only [mainRun, h, if_true, calculateStatistics, opTypes,
      List.map_cons, List.map_nil, List.sum_cons, List.sum_nil]
    rw [statFor_count, statFor_count, statFor_count]
    simp only [List.countP_append]
    rw [h1c, h1a, h1g, h2c, h2a, h2g, h3c, h3a, h3g]
    rfl

/-- Witness for C8 at the concrete healthy run. -/
theorem mainRun_total_count_witness :
    (mainRun envHealthy).results.length = 150
      ∧ ((mainRun envHealthy).stats.map (fun e => e.2.count)).sum = 150
      ∧ TotalOps = 150 :=
  mainRun_total_count envHealthy rfl

theorem poolReach_invariant (W count : Nat) (s : PoolState)
    (h : PoolReach W count s) :
    s.running.length ≤ W
      ∧ ∀ i, i < count → i ∈ s.waiting ∨ i ∈ s.running ∨ i ∈ s.done := by
  induction h with
  | init =>
    refine ⟨by simp [initPool], ?_⟩
    intro i hi
    exact Or.inl (by simpa [initPool] using List.mem_range.mpr hi)
  | step _ hs ih =>
    cases hs with
    | acquire w1 w2 i r d hW =>
      refine ⟨by simpa using Nat.succ_le_of_lt hW, ?_⟩
      intro j hj
      rcases ih.2 j hj with hw | hr2 | hd
      · simp only [List.mem_append, List.mem_cons] at hw
        rcases hw with h1 | h2 | h3
        · exact Or.inl (List.mem_append.mpr (Or.inl h1))
        · exact Or.inr (Or.inl (by simp [h2]))
        · exact Or.inl (List.mem_append.mpr (Or.inr h3))
      · exact Or.inr (Or.inl (List.mem_cons_of_mem _ hr2))
      · exact Or.inr (Or.inr hd)
    | release r1 r2 i w d =>
      have hlen : (r1 ++ r2).length ≤ (r1 ++ i :: r2).length := by
        simp only [List.length_append, List.length_cons]
        omega
      refine ⟨le_trans hlen ih.1, ?_⟩
      intro j hj
      rcases ih.2 j hj with hw | hr2 | hd
      · exact Or.inl hw
      · simp only [List.mem_append, List.mem_cons] at hr2
        rcases hr2 with h1 | h2 | h3
        · exact Or.inr (Or.inl (List.mem_append.mpr (Or.inl h1)))
        · exact Or.inr (Or.inr (by simp [h2]))
        · exact Or.inr (Or.inl (List.mem_append.mpr (Or.inr h3)))
      · exact Or.inr (Or.inr (List.mem_cons_of_mem _ hd))

/-- C5: with the semaphore channel of capacity `NumWorkers = 10`, every
state the pool can reach during a phase has at most 10 tasks holding a
slot (an 11th acquisition is enabled only after a release), and when
`runConcurrent` returns — all goroutines past the semaphore and
`wg.Wait()` satisfied, i.e. `waiting` and `running` empty — every one of
the `count` submitted tasks has completed. -/
theorem runConcurrent_bounded (count : Nat) (s : PoolState)
    (h : PoolReach NumWorkers count s) :
    s.running.length ≤ 10
      ∧ (s.waiting = [] → s.running = [] → ∀ i, i < count → i ∈ s.done) := by
  obtain ⟨h1, h2⟩ := poolReach_invariant NumWorkers count s h
  refine ⟨h1, ?_⟩
  intro hw hr i hi
  rcases h2 i hi with hmem | hmem | hmem
  · rw [hw] at hmem
    cases hmem
  · rw [hr] at hmem
    cases hmem
  · exact hmem

/-- Witness for C5: a single-task pool run to completion — spawn, acquire,
release — reaches the terminal state, where the bound and the completeness
conclusion hold. -/
theorem runConcurrent_bounded_witness :
    (PoolState.mk [] [] [0]).running.length ≤ 10
      ∧ ((PoolState.mk [] [] [0]).waiting = [] →
          (PoolState.mk [] [] [0]).running = [] →
          ∀ i, i < 1 → i ∈ (PoolState.mk [] [] [0]).done) := by
  have h1 : PoolStep NumWorkers (initPool 1) (PoolState.mk [] [0] []) :=
    PoolStep.acquire [] [] 0 [] [] (by decide)
  have h2 : PoolStep NumWorkers (PoolState.mk [] [0] [])
      (PoolState.mk [] [] [0]) :=
    PoolStep.release [] [] 0 [] []
  exact runConcurrent_bounded 1 (PoolState.mk [] [] [0])
    (PoolReach.step (PoolReach.step PoolReach.init h1) h2)

/-- A phase of two tasks, sequentialised: task 0 raises an unexpected
runtime fault (a Go panic) inside its body; task 1 would complete normally
with a successful record. -/
def panicPhase : Nat → Except String TestResult := fun i =>
  if i = 0 then
    Except.error "runtime error: invalid memory address or nil pointer dereference"
  else Except.ok (createCart 10000 (Transport.response 201) 1 "t")

/-- C1 counterexample: `runConcurrent` (lines 171-188) installs no
`recover()` at the task boundary, so the unexpected runtime fault of
task 0 is not caught there and not converted into a failed Outcome Record:
it propagates out of the goroutine, aborting the run — no record for
task 0, and task 1's record is lost with the process.  (A `TestResult`
also has no field in which diagnostic detail could be retained.) -/
theorem runConcurrent_panic_aborts :
    runConcurrentSeq 2 panicPhase
      = Except.error "runtime error: invalid memory address or nil pointer dereference" :=
  rfl

theorem runTasks_all_ok (f : Nat → TestResult) (l : List Nat) :
    runTasks (fun i => Except.ok (f i)) l = Except.ok (l.map f) := by
  induction l with
  | nil => rfl
  | cons i is ih => simp [runTasks, ih, Except.map]

/-- C1 amended: a task body that returns normally never disturbs the
phase: when no task panics — as in the shipped harness, where transport
and application failures are handled inside the task body as error values
and become failed Outcome Records — the phase completes with exactly one
record per task.  A genuine runtime panic, however, is not caught at the
task boundary (no recovery exists in `runConcurrent`) and aborts the run,
and records retain no diagnostic detail beyond the failure flag and the
zero status code. -/
theorem runConcurrent_no_panic_completes (count : Nat) (f : Nat → TestResult) :
    runConcurrentSeq count (fun i => Except.ok (f i))
        = Except.ok ((List.range count).map f)
      ∧ ((List.range count).map f).length = count :=
  ⟨runTasks_all_ok f (List.range count), by simp⟩

end Testing

namespace Service

/-- C10: for a POST `/shopping-carts` request whose body bound to a valid
integer `customer_id`: when no cart is stored under that customer, the
handler writes a fresh cart with an empty items list and answers 201; when
a cart already exists, it answers 200 with the "already exists" message
and issues no write — the store is returned unchanged. -/
theorem createShoppingCart_spec (store : CartStore) (cid : Int)
    (now : String) :
    (getItem store cid = none →
        createShoppingCart store cid now
          = (putItem store cid
               { customerID := cid, items := [], createdAt := now
                 updatedAt := now },
             { status := 201
               message := "shopping cart created for customer " ++ toString cid })
        ∧ getItem (createShoppingCart store cid now).1 cid
            = some { customerID := cid, items := [], createdAt := now
                     updatedAt := now })
    ∧ (∀ c, getItem store cid = some c →
        (createShoppingCart store cid now).1 = store
        ∧ (createShoppingCart store cid now).2
            = { status := 200
                message := "Shopping cart already exists for this customer" }) := by
  constructor
  · intro h
    constructor
    · simp [createShoppingCart, h]
    · simp only [createShoppingCart, h]
      simp [getItem, putItem, List.lookup]
  · intro c h
    constructor <;> simp [createShoppingCart, h]

/-- A store holding one cart for customer 7, used in the C10 witness. -/
def store7 : CartStore :=
  [(7, { customerID := 7, items := [], createdAt := "t0", updatedAt := "t0" })]

/-- Witness for C10: creating against the empty store writes the empty
cart and answers 201; creating again against `store7` answers 200 and
leaves the store untouched. -/
theorem createShoppingCart_spec_witness :
    (createShoppingCart [] 7 "t1"
        = (putItem [] 7
             { customerID := 7, items := [], createdAt := "t1", updatedAt := "t1" },
           { status := 201
             message := "shopping cart created for customer " ++ toString (7 : Int) })
      ∧ getItem (createShoppingCart [] 7 "t1").1 7
          = some { customerID := 7, items := [], createdAt := "t1", updatedAt := "t1" })
    ∧ ((createShoppingCart store7 7 "t1").1 = store7
      ∧ (createShoppingCart store7 7 "t1").2
          = { status := 200
              message := "Shopping cart already exists for this customer" }) :=
  ⟨(createShoppingCart_spec [] 7 "t1").1 rfl,
   (createShoppingCart_spec store7 7 "t1").2
     { customerID := 7, items := [], createdAt := "t0", updatedAt := "t0" } rfl⟩

end Service
